import Mathlib

/-!
Shallow embedding of the Adaptive Smart Replay (ASR) core,
src/backend/storage/adaptive_sr.c together with its header
src/include/storage/adaptive_sr.h.

Doubles are modelled as rationals, C `int` and `time_t` as `Int`, and the
64-bit unsigned counters as naturals reduced modulo 2^64 with wrap
arithmetic.  Each definition transcribes the correspondingly named C
function; global mutable state (`asr_metrics`, `asr_config`) is passed
explicitly.
-/

namespace AdaptiveSR

/-- Modulus of the C `uint64_t` counters. -/
def U64_MOD : ℕ := 2 ^ 64

/-- `atomic_fetch_add` on a `uint64_t` counter: addition wraps modulo 2^64. -/
def u64add (a b : ℕ) : ℕ := (a + b) % U64_MOD

/-- Unsigned 64-bit wrap subtraction `a - b`, used for the counter deltas
(lines 275, 285, 300 of adaptive_sr.c).  Both arguments are < 2^64. -/
def u64sub (a b : ℕ) : ℕ := (a + U64_MOD - b) % U64_MOD

/-- `ASRConfig` from adaptive_sr.h lines 26-58.  Field names follow the
header. -/
structure ASRConfig where
  QSTAR : ℚ
  RSTAR : ℚ
  WSTAR : ℚ
  BMIN : ℤ
  BMAX : ℤ
  WQ : ℚ
  WM : ℚ
  WW : ℚ
  HYST : ℤ
  MAX_STEP : ℚ
  enable_adaptive_sr : Bool
  verbose_metrics : Bool
deriving DecidableEq

/-- `asr_default_config` from adaptive_sr.c lines 32-45. -/
def asr_default_config : ASRConfig :=
  { QSTAR := 100
    RSTAR := 1/20
    WSTAR := 10 * 1024 * 1024
    BMIN := 10
    BMAX := 2000
    WQ := 3/10
    WM := 3/5
    WW := 1/10
    HYST := 20
    MAX_STEP := 1/5
    enable_adaptive_sr := false
    verbose_metrics := false }

/-- `ASRMetricsInternal` from adaptive_sr.c lines 55-76 (the mutex is
concurrency plumbing and has no functional content). -/
structure ASRMetricsInternal where
  replay_tasks_count : ℕ
  hot_misses : ℕ
  wal_bytes_received : ℕ
  queue_ewma : ℚ
  miss_rate_ewma : ℚ
  wal_bps_ewma : ℚ
  current_budget : ℤ
  current_aggressiveness : ℚ
  last_total_misses : ℕ
  last_total_tasks : ℕ
  last_wal_bytes : ℕ
  last_measurement : ℤ
deriving DecidableEq

/-- Static initializer `asr_metrics` from adaptive_sr.c lines 78-92:
all counters and smoother state zero, `current_budget = 100`. -/
def asr_metrics_init : ASRMetricsInternal :=
  { replay_tasks_count := 0
    hot_misses := 0
    wal_bytes_received := 0
    queue_ewma := 0
    miss_rate_ewma := 0
    wal_bps_ewma := 0
    current_budget := 100
    current_aggressiveness := 0
    last_total_misses := 0
    last_total_tasks := 0
    last_wal_bytes := 0
    last_measurement := 0 }

/-- `EWMA_ALPHA` macro, adaptive_sr.c line 105: a compile-time constant,
not a configuration field. -/
def EWMA_ALPHA : ℚ := 3/10

/-- `ewma_update`, adaptive_sr.c lines 107-111. -/
def ewma_update (old_val new_val : ℚ) : ℚ :=
  EWMA_ALPHA * new_val + (1 - EWMA_ALPHA) * old_val

/-- `compute_pressure`, adaptive_sr.c lines 117-130.  The `expected = 0`
branch mirrors IEEE semantics: for `raw > expected = 0` the C division
yields +infinity, which the upper clamp maps to 1 (rational division by
zero would instead give 0, so that case is made explicit). -/
def compute_pressure (raw expected : ℚ) : ℚ :=
  if raw ≤ expected then 0
  else if expected = 0 then 1
  else if raw / expected - 1 > 1 then 1 else raw / expected - 1

/-- `ASR_RecordReplayTask`, adaptive_sr.c lines 136-143. -/
def ASR_RecordReplayTask (cfg : ASRConfig) (count : ℤ)
    (st : ASRMetricsInternal) : ASRMetricsInternal :=
  if cfg.enable_adaptive_sr = false ∨ count ≤ 0 then st
  else { st with replay_tasks_count := u64add st.replay_tasks_count count.toNat }

/-- `ASR_RecordHotMiss`, adaptive_sr.c lines 149-156. -/
def ASR_RecordHotMiss (cfg : ASRConfig)
    (st : ASRMetricsInternal) : ASRMetricsInternal :=
  if cfg.enable_adaptive_sr = false then st
  else { st with hot_misses := u64add st.hot_misses 1 }

/-- `ASR_RecordWalIngest`, adaptive_sr.c lines 162-169 (`bytes` is a
`size_t`, modelled as a natural below 2^64). -/
def ASR_RecordWalIngest (cfg : ASRConfig) (bytes : ℕ)
    (st : ASRMetricsInternal) : ASRMetricsInternal :=
  if cfg.enable_adaptive_sr = false ∨ bytes = 0 then st
  else { st with wal_bytes_received := u64add st.wal_bytes_received bytes }

/-- `ASR_GetCurrentBudget`, adaptive_sr.c lines 174-184. -/
def ASR_GetCurrentBudget (st : ASRMetricsInternal) : ℤ :=
  st.current_budget

/-- `ASR_SetBudget`, adaptive_sr.c lines 189-195. -/
def ASR_SetBudget (budget : ℤ) (st : ASRMetricsInternal) : ASRMetricsInternal :=
  { st with current_budget := budget }

/-- `budget_from_aggressiveness`, adaptive_sr.c lines 201-212: clamp `A`
to [0,1], then `(int) floor(BMIN + A * (BMAX - BMIN))`. -/
def budget_from_aggressiveness (A : ℚ) (cfg : ASRConfig) : ℤ :=
  let A1 := if A < 0 then 0 else A
  let A2 := if A1 > 1 then 1 else A1
  ⌊(cfg.BMIN : ℚ) + A2 * ((cfg.BMAX : ℚ) - (cfg.BMIN : ℚ))⌋

/-- The step-limit block of `asr_update_smoothed_metrics`, adaptive_sr.c
lines 319-328: applied to the previous stored aggressiveness and the
clamped weighted target of the current tick. -/
def asr_step_limit (cfg : ASRConfig) (agg_prev target : ℚ) : ℚ :=
  let delta_a := target - agg_prev
  if |delta_a| > cfg.MAX_STEP then
    (if delta_a > 0 then agg_prev + cfg.MAX_STEP else agg_prev - cfg.MAX_STEP)
  else target

/-- The hysteresis block of `asr_update_smoothed_metrics`, adaptive_sr.c
lines 336-340: `delta = |new_budget - last_budget|`; if `delta < HYST`
the previous budget is kept. -/
def asr_apply_hysteresis (cfg : ASRConfig) (last_budget new_budget : ℤ) : ℤ :=
  let delta := new_budget - last_budget
  let delta := if delta < 0 then -delta else delta
  if delta < cfg.HYST then last_budget else new_budget

/-- The `dt` computation of `asr_update_smoothed_metrics`, adaptive_sr.c
lines 259-264: 1 s on the first tick, else `now - last_measurement`,
floored at 0.1 s. -/
def asr_dt (now : ℤ) (st : ASRMetricsInternal) : ℚ :=
  let dt0 : ℚ := if st.last_measurement = 0 then 1 else ((now - st.last_measurement : ℤ) : ℚ)
  if dt0 < 1/10 then 1/10 else dt0

/-- `asr_update_smoothed_metrics`, adaptive_sr.c lines 241-363: one
controller tick.  `now` is the value of `time(NULL)`.  The function
never reads `cfg.enable_adaptive_sr`.  Note the ordering bug transcribed
from the source: line 278 overwrites `last_total_tasks` with
`total_tasks` BEFORE line 286 compares `total_tasks` against that same
field, so the miss-rate branch tests `total_tasks > total_tasks`. -/
def asr_update_smoothed_metrics (cfg : ASRConfig) (now : ℤ)
    (st : ASRMetricsInternal) : ASRMetricsInternal :=
  let dt := asr_dt now st
  let total_tasks := st.replay_tasks_count
  let total_misses := st.hot_misses
  let total_wal_bytes := st.wal_bytes_received
  let tasks_delta := u64sub total_tasks st.last_total_tasks
  let new_queue : ℚ := if 0 < dt then (tasks_delta : ℚ) / dt else 0
  let queue_ewma := ewma_update st.queue_ewma new_queue
  let last_total_tasks := total_tasks
  let misses_delta := u64sub total_misses st.last_total_misses
  let new_miss_rate : ℚ :=
    if last_total_tasks < total_tasks then
      (misses_delta : ℚ) / ((tasks_delta : ℚ) + 1)
    else 0
  let miss_rate_ewma := ewma_update st.miss_rate_ewma new_miss_rate
  let last_total_misses := total_misses
  let wal_delta := u64sub total_wal_bytes st.last_wal_bytes
  let new_wal_bps : ℚ := if 0 < dt then (wal_delta : ℚ) / dt else 0
  let wal_bps_ewma := ewma_update st.wal_bps_ewma new_wal_bps
  let last_wal_bytes := total_wal_bytes
  let eq_p := compute_pressure queue_ewma cfg.QSTAR
  let em_p := compute_pressure miss_rate_ewma cfg.RSTAR
  let ew_p := compute_pressure wal_bps_ewma cfg.WSTAR
  let aggressiveness0 := cfg.WQ * eq_p + cfg.WM * em_p + cfg.WW * ew_p
  let aggressiveness1 := if aggressiveness0 > 1 then 1 else aggressiveness0
  let aggressiveness2 := if aggressiveness1 < 0 then 0 else aggressiveness1
  let aggressiveness3 := asr_step_limit cfg st.current_aggressiveness aggressiveness2
  let new_budget := budget_from_aggressiveness aggressiveness3 cfg
  let published := asr_apply_hysteresis cfg st.current_budget new_budget
  { replay_tasks_count := total_tasks
    hot_misses := total_misses
    wal_bytes_received := total_wal_bytes
    queue_ewma := queue_ewma
    miss_rate_ewma := miss_rate_ewma
    wal_bps_ewma := wal_bps_ewma
    current_budget := published
    current_aggressiveness := aggressiveness3
    last_total_misses := last_total_misses
    last_total_tasks := last_total_tasks
    last_wal_bytes := last_wal_bytes
    last_measurement := now }

/-- `ASR_Init`, adaptive_sr.c lines 392-405: installs the default
configuration and sets `current_budget` to the default `BMIN`.  It does
not touch the counters or the smoother state. -/
def ASR_Init (st : ASRMetricsInternal) : ASRConfig × ASRMetricsInternal :=
  (asr_default_config, { st with current_budget := asr_default_config.BMIN })

/-- `ASR_UpdateConfig`, adaptive_sr.c lines 482-495: a NULL argument is
ignored; any other configuration is copied over the current one
wholesale, with no validation. -/
def ASR_UpdateConfig (new_config : Option ASRConfig) (cfg : ASRConfig) : ASRConfig :=
  match new_config with
  | none => cfg
  | some c => c

/-- `ASRMetrics` snapshot, adaptive_sr.h lines 64-82. -/
structure ASRMetrics where
  replay_queue_length : ℚ
  hot_miss_rate : ℚ
  wal_ingest_bps : ℚ
  last_update : ℤ
  aggressiveness : ℚ
  replay_budget : ℤ
deriving DecidableEq

/-- `ASR_ReadMetrics`, adaptive_sr.c lines 218-235. -/
def ASR_ReadMetrics (st : ASRMetricsInternal) : ASRMetrics :=
  { replay_queue_length := st.queue_ewma
    hot_miss_rate := st.miss_rate_ewma
    wal_ingest_bps := st.wal_bps_ewma
    last_update := st.last_measurement
    aggressiveness := st.current_aggressiveness
    replay_budget := st.current_budget }

/-- Modelled from the spec (section 4.2 step 5, the `ewma_alpha`
configuration field recognized by the spec but absent from `ASRConfig`):
the EWMA update with a configurable weight on the new sample. -/
def ewma_update_spec (ewma_alpha old_val new_val : ℚ) : ℚ :=
  ewma_alpha * new_val + (1 - ewma_alpha) * old_val

/-- States reachable from `ASR_Init` (run from an arbitrary prior state)
by controller ticks under the installed default configuration, with any
interleaving of ingest calls; `ASR_SetBudget` is used only by the
controller, i.e. never as a separate step. -/
inductive Reachable : ASRMetricsInternal → Prop where
  | init (st0 : ASRMetricsInternal) : Reachable (ASR_Init st0).2
  | tick (st : ASRMetricsInternal) (now : ℤ) : Reachable st →
      Reachable (asr_update_smoothed_metrics asr_default_config now st)
  | replay (st : ASRMetricsInternal) (cfg : ASRConfig) (n : ℤ) : Reachable st →
      Reachable (ASR_RecordReplayTask cfg n st)
  | miss (st : ASRMetricsInternal) (cfg : ASRConfig) : Reachable st →
      Reachable (ASR_RecordHotMiss cfg st)
  | wal (st : ASRMetricsInternal) (cfg : ASRConfig) (b : ℕ) : Reachable st →
      Reachable (ASR_RecordWalIngest cfg b st)

/-- The default configuration with the master switch turned on, the
deployment the docs describe (edit `enable_adaptive_sr` to true). -/
def asr_enabled_config : ASRConfig :=
  { asr_default_config with enable_adaptive_sr := true }

/-- The raw queue sample of one tick: transcribes lines 275-276 of
adaptive_sr.c (`tasks_delta / dt`). -/
def asr_raw_queue (now : ℤ) (st : ASRMetricsInternal) : ℚ :=
  if 0 < asr_dt now st then
    (u64sub st.replay_tasks_count st.last_total_tasks : ℚ) / asr_dt now st
  else 0

/-- The raw miss-rate sample of one tick: transcribes lines 285-293 of
adaptive_sr.c.  The guard of line 286 reads `last_total_tasks` after
line 278 already overwrote it with `total_tasks`, so it compares
`replay_tasks_count` with itself and is always false. -/
def asr_raw_miss_rate (st : ASRMetricsInternal) : ℚ :=
  if st.replay_tasks_count < st.replay_tasks_count then
    (u64sub st.hot_misses st.last_total_misses : ℚ) /
      ((u64sub st.replay_tasks_count st.last_total_tasks : ℚ) + 1)
  else 0

/-- The raw WAL rate sample of one tick: transcribes lines 300-301 of
adaptive_sr.c (`wal_delta / dt`). -/
def asr_raw_wal_bps (now : ℤ) (st : ASRMetricsInternal) : ℚ :=
  if 0 < asr_dt now st then
    (u64sub st.wal_bytes_received st.last_wal_bytes : ℚ) / asr_dt now st
  else 0

/-- The budget a tick computes before hysteresis (`new_budget` at line
333 of adaptive_sr.c): the same let chain as
`asr_update_smoothed_metrics` up to `budget_from_aggressiveness`. -/
def asr_tick_target_budget (cfg : ASRConfig) (now : ℤ)
    (st : ASRMetricsInternal) : ℤ :=
  let dt := asr_dt now st
  let total_tasks := st.replay_tasks_count
  let total_misses := st.hot_misses
  let total_wal_bytes := st.wal_bytes_received
  let tasks_delta := u64sub total_tasks st.last_total_tasks
  let new_queue : ℚ := if 0 < dt then (tasks_delta : ℚ) / dt else 0
  let queue_ewma := ewma_update st.queue_ewma new_queue
  let last_total_tasks := total_tasks
  let misses_delta := u64sub total_misses st.last_total_misses
  let new_miss_rate : ℚ :=
    if last_total_tasks < total_tasks then
      (misses_delta : ℚ) / ((tasks_delta : ℚ) + 1)
    else 0
  let miss_rate_ewma := ewma_update st.miss_rate_ewma new_miss_rate
  let wal_delta := u64sub total_wal_bytes st.last_wal_bytes
  let new_wal_bps : ℚ := if 0 < dt then (wal_delta : ℚ) / dt else 0
  let wal_bps_ewma := ewma_update st.wal_bps_ewma new_wal_bps
  let eq_p := compute_pressure queue_ewma cfg.QSTAR
  let em_p := compute_pressure miss_rate_ewma cfg.RSTAR
  let ew_p := compute_pressure wal_bps_ewma cfg.WSTAR
  let aggressiveness0 := cfg.WQ * eq_p + cfg.WM * em_p + cfg.WW * ew_p
  let aggressiveness1 := if aggressiveness0 > 1 then 1 else aggressiveness0
  let aggressiveness2 := if aggressiveness1 < 0 then 0 else aggressiveness1
  let aggressiveness3 := asr_step_limit cfg st.current_aggressiveness aggressiveness2
  budget_from_aggressiveness aggressiveness3 cfg

/-- Spec scenario 3 state: from a fresh enabled subsystem, 50 recorded
replay tasks and 25 recorded hot misses before the first tick. -/
def c1_state : ASRMetricsInternal :=
  (fun s => ASR_RecordHotMiss asr_enabled_config s)^[25]
    (ASR_RecordReplayTask asr_enabled_config 50 (ASR_Init asr_metrics_init).2)

/-- A state with nonzero smoother state, used to observe a tick under a
disabled configuration. -/
def c2_state : ASRMetricsInternal :=
  { asr_metrics_init with miss_rate_ewma := 1 }

/-- A state with a nonzero raw counter, used to observe `ASR_Init`. -/
def c3_state : ASRMetricsInternal :=
  { asr_metrics_init with hot_misses := 5 }

/-- A malformed configuration: `BMAX = 5 ≤ 10 = BMIN`. -/
def c4_bad_config : ASRConfig :=
  { asr_default_config with BMAX := 5 }

/-! ## Helper lemmas -/

theorem recordReplayTask_budget (cfg : ASRConfig) (n : ℤ) (st : ASRMetricsInternal) :
    (ASR_RecordReplayTask cfg n st).current_budget = st.current_budget := by
  unfold ASR_RecordReplayTask; split <;> rfl

theorem recordHotMiss_budget (cfg : ASRConfig) (st : ASRMetricsInternal) :
    (ASR_RecordHotMiss cfg st).current_budget = st.current_budget := by
  unfold ASR_RecordHotMiss; split <;> rfl

theorem recordWalIngest_budget (cfg : ASRConfig) (b : ℕ) (st : ASRMetricsInternal) :
    (ASR_RecordWalIngest cfg b st).current_budget = st.current_budget := by
  unfold ASR_RecordWalIngest; split <;> rfl

theorem tick_budget_shape (cfg : ASRConfig) (now : ℤ) (st : ASRMetricsInternal) :
    ∃ A, (asr_update_smoothed_metrics cfg now st).current_budget =
      asr_apply_hysteresis cfg st.current_budget (budget_from_aggressiveness A cfg) :=
  ⟨_, rfl⟩

theorem tick_agg_shape (cfg : ASRConfig) (now : ℤ) (st : ASRMetricsInternal) :
    ∃ t, (asr_update_smoothed_metrics cfg now st).current_aggressiveness =
      asr_step_limit cfg st.current_aggressiveness t :=
  ⟨_, rfl⟩

theorem ite_neg_abs (x : ℤ) : (if x < 0 then -x else x) = |x| := by
  split
  · exact (abs_of_neg (by assumption)).symm
  · exact (abs_of_nonneg (le_of_not_lt (by assumption))).symm

theorem asr_apply_hysteresis_cases (cfg : ASRConfig) (last_budget new_budget : ℤ) :
    asr_apply_hysteresis cfg last_budget new_budget = last_budget ∨
      (asr_apply_hysteresis cfg last_budget new_budget = new_budget ∧
        cfg.HYST ≤ |new_budget - last_budget|) := by
  simp only [asr_apply_hysteresis, ite_neg_abs]
  by_cases h : |new_budget - last_budget| < cfg.HYST
  · left; simp [h]
  · right; simp [h, le_of_not_lt h]

theorem asr_step_limit_bound (cfg : ASRConfig) (a t : ℚ) (h : 0 ≤ cfg.MAX_STEP) :
    |asr_step_limit cfg a t - a| ≤ cfg.MAX_STEP := by
  simp only [asr_step_limit]
  by_cases h1 : |t - a| > cfg.MAX_STEP
  · rw [if_pos h1]
    by_cases h2 : t - a > 0
    · rw [if_pos h2]
      have hq : a + cfg.MAX_STEP - a = cfg.MAX_STEP := by ring
      rw [hq, abs_of_nonneg h]
    · rw [if_neg h2]
      have hq : a - cfg.MAX_STEP - a = -cfg.MAX_STEP := by ring
      rw [hq, abs_neg, abs_of_nonneg h]
  · rw [if_neg h1]
    exact le_of_not_lt h1

theorem budget_from_aggressiveness_bounds (A : ℚ) (cfg : ASRConfig)
    (h : cfg.BMIN ≤ cfg.BMAX) :
    cfg.BMIN ≤ budget_from_aggressiveness A cfg ∧
      budget_from_aggressiveness A cfg ≤ cfg.BMAX := by
  simp only [budget_from_aggressiveness]
  have hBB : (cfg.BMIN : ℚ) ≤ (cfg.BMAX : ℚ) := by exact_mod_cast h
  set A1 : ℚ := if A < 0 then 0 else A with hA1
  set A2 : ℚ := if A1 > 1 then 1 else A1 with hA2
  have h0 : 0 ≤ A1 := by
    rw [hA1]; split
    · exact le_refl 0
    · exact le_of_not_lt (by assumption)
  have h02 : 0 ≤ A2 := by
    rw [hA2]; split
    · exact zero_le_one
    · exact h0
  have h12 : A2 ≤ 1 := by
    rw [hA2]; split
    · exact le_refl 1
    · exact le_of_not_lt (by assumption)
  constructor
  · rw [Int.le_floor]
    nlinarith [mul_nonneg h02 (sub_nonneg.mpr hBB)]
  · have hle : (cfg.BMIN : ℚ) + A2 * ((cfg.BMAX : ℚ) - (cfg.BMIN : ℚ)) ≤ (cfg.BMAX : ℚ) := by
      nlinarith [sub_nonneg.mpr hBB]
    calc ⌊(cfg.BMIN : ℚ) + A2 * ((cfg.BMAX : ℚ) - (cfg.BMIN : ℚ))⌋
        ≤ ⌊(cfg.BMAX : ℚ)⌋ := Int.floor_mono hle
      _ = cfg.BMAX := Int.floor_intCast _

theorem tick_queue_ewma (cfg : ASRConfig) (now : ℤ) (st : ASRMetricsInternal) :
    (asr_update_smoothed_metrics cfg now st).queue_ewma =
      ewma_update st.queue_ewma (asr_raw_queue now st) := rfl

theorem tick_miss_rate_ewma_raw (cfg : ASRConfig) (now : ℤ) (st : ASRMetricsInternal) :
    (asr_update_smoothed_metrics cfg now st).miss_rate_ewma =
      ewma_update st.miss_rate_ewma (asr_raw_miss_rate st) := rfl

theorem tick_wal_bps_ewma (cfg : ASRConfig) (now : ℤ) (st : ASRMetricsInternal) :
    (asr_update_smoothed_metrics cfg now st).wal_bps_ewma =
      ewma_update st.wal_bps_ewma (asr_raw_wal_bps now st) := rfl

theorem asr_raw_miss_rate_eq_zero (st : ASRMetricsInternal) :
    asr_raw_miss_rate st = 0 := by
  simp [asr_raw_miss_rate]

theorem tick_miss_rate_ewma (cfg : ASRConfig) (now : ℤ) (st : ASRMetricsInternal) :
    (asr_update_smoothed_metrics cfg now st).miss_rate_ewma =
      ewma_update st.miss_rate_ewma 0 := by
  rw [tick_miss_rate_ewma_raw, asr_raw_miss_rate_eq_zero]

theorem tick_budget_eq (cfg : ASRConfig) (now : ℤ) (st : ASRMetricsInternal) :
    (asr_update_smoothed_metrics cfg now st).current_budget =
      asr_apply_hysteresis cfg st.current_budget (asr_tick_target_budget cfg now st) := rfl

/-! ## Claims -/

/-- C1: the spec says each tick computes the raw hot-miss fraction
`m_raw = Δmisses / (Δtasks + 1)` and feeds it into `miss_rate_ewma`,
which under 50 tasks and 25 misses per tick converges to 25/51; the
code instead always feeds the sample 0, because line 278 overwrites
`last_total_tasks` before the guard on line 286 reads it, so the ratio
branch is dead: after the scenario tick `miss_rate_ewma` is 0, and in
general every tick updates `miss_rate_ewma` with sample 0. -/
theorem c1_miss_rate_branch_dead :
    (asr_update_smoothed_metrics asr_enabled_config 1 c1_state).miss_rate_ewma = 0 ∧
      (25 : ℚ) / 51 ≠ 0 ∧
      (∀ (cfg : ASRConfig) (now : ℤ) (st : ASRMetricsInternal),
        (asr_update_smoothed_metrics cfg now st).miss_rate_ewma =
          ewma_update st.miss_rate_ewma 0) := by
  refine ⟨?_, by norm_num, tick_miss_rate_ewma⟩
  rw [tick_miss_rate_ewma]
  have h : c1_state.miss_rate_ewma = 0 := by decide
  rw [h]
  norm_num [ewma_update]

/-- C2 counterexample: with the default (disabled) configuration, a
controller tick still changes smoother state: from `miss_rate_ewma = 1`
the tick moves it (to 7/10), so "smoother state, EWMAs, aggressiveness,
and the published budget are all unchanged by the tick" is false —
`asr_update_smoothed_metrics` never reads `enable_adaptive_sr`. -/
theorem c2_disabled_tick_changes_state :
    asr_default_config.enable_adaptive_sr = false ∧
      (asr_update_smoothed_metrics asr_default_config 5 c2_state).miss_rate_ewma ≠
        c2_state.miss_rate_ewma := by
  refine ⟨rfl, ?_⟩
  rw [tick_miss_rate_ewma]
  norm_num [ewma_update, EWMA_ALPHA, c2_state]

/-- C2 (amended): when the configuration has `enable_adaptive_sr =
false`, every ingest call (`ASR_RecordReplayTask`, `ASR_RecordHotMiss`,
`ASR_RecordWalIngest`) leaves the state (in particular the raw
counters) untouched; the tick function itself, however, performs its
updates regardless of the flag — the disabled guard exists only in
that the controller thread is never started. -/
theorem c2_disabled_ingest_noop (cfg : ASRConfig) (st : ASRMetricsInternal)
    (n : ℤ) (b : ℕ) (h : cfg.enable_adaptive_sr = false) :
    ASR_RecordReplayTask cfg n st = st ∧ ASR_RecordHotMiss cfg st = st ∧
      ASR_RecordWalIngest cfg b st = st := by
  refine ⟨?_, ?_, ?_⟩ <;>
    simp [ASR_RecordReplayTask, ASR_RecordHotMiss, ASR_RecordWalIngest, h]

theorem c2_disabled_ingest_noop_witness :
    asr_default_config.enable_adaptive_sr = false ∧
      (ASR_RecordReplayTask asr_default_config 7 asr_metrics_init = asr_metrics_init ∧
        ASR_RecordHotMiss asr_default_config asr_metrics_init = asr_metrics_init ∧
        ASR_RecordWalIngest asr_default_config 9 asr_metrics_init = asr_metrics_init) :=
  ⟨rfl, c2_disabled_ingest_noop asr_default_config asr_metrics_init 7 9 rfl⟩

/-- C3 counterexample: `ASR_Init` called on a state whose `hot_misses`
counter is 5 leaves it at 5, refuting "init() ... zeroes all three raw
counters and all smoother state ... regardless of the state at the time
of the call" (the zeros come only from the static initializer). -/
theorem c3_init_does_not_zero_counters :
    ((ASR_Init c3_state).2).hot_misses = 5 ∧ ((ASR_Init c3_state).2).hot_misses ≠ 0 := by
  exact ⟨rfl, by decide⟩

/-- C3 (amended): `ASR_Init` installs the default configuration and
sets the published budget to the default `BMIN`; it leaves the raw
counters and all smoother state (previous counter snapshots, previous
timestamp, the three EWMAs, the previous aggressiveness) exactly as
they were at the time of the call. -/
theorem c3_init_frame (st : ASRMetricsInternal) :
    (ASR_Init st).1 = asr_default_config ∧
      (ASR_Init st).2.current_budget = asr_default_config.BMIN ∧
      (ASR_Init st).2.replay_tasks_count = st.replay_tasks_count ∧
      (ASR_Init st).2.hot_misses = st.hot_misses ∧
      (ASR_Init st).2.wal_bytes_received = st.wal_bytes_received ∧
      (ASR_Init st).2.queue_ewma = st.queue_ewma ∧
      (ASR_Init st).2.miss_rate_ewma = st.miss_rate_ewma ∧
      (ASR_Init st).2.wal_bps_ewma = st.wal_bps_ewma ∧
      (ASR_Init st).2.current_aggressiveness = st.current_aggressiveness ∧
      (ASR_Init st).2.last_total_misses = st.last_total_misses ∧
      (ASR_Init st).2.last_total_tasks = st.last_total_tasks ∧
      (ASR_Init st).2.last_wal_bytes = st.last_wal_bytes ∧
      (ASR_Init st).2.last_measurement = st.last_measurement :=
  ⟨rfl, rfl, rfl, rfl, rfl, rfl, rfl, rfl, rfl, rfl, rfl, rfl, rfl⟩

/-- C4 counterexample: `ASR_UpdateConfig` installs a malformed
configuration (`BMAX = 5 ≤ 10 = BMIN`), so the configuration observed
afterwards differs from the configuration before the call — there is
no validation. -/
theorem c4_update_config_accepts_malformed :
    c4_bad_config.BMAX ≤ c4_bad_config.BMIN ∧
      ASR_UpdateConfig (some c4_bad_config) asr_default_config ≠ asr_default_config := by
  refine ⟨by decide, ?_⟩
  intro h
  have hB : (5 : ℤ) = 2000 := congrArg ASRConfig.BMAX h
  exact absurd hB (by decide)

/-- C4 (amended): `ASR_UpdateConfig` rejects only a NULL argument
(leaving the prior configuration in effect); every non-NULL
configuration, malformed or not, is copied over the current one
wholesale. -/
theorem c4_update_config_total (cfg c : ASRConfig) :
    ASR_UpdateConfig (some c) cfg = c ∧ ASR_UpdateConfig none cfg = cfg :=
  ⟨rfl, rfl⟩

/-- C5: for every state reachable from `ASR_Init` by controller ticks
(with `ASR_SetBudget` used only by the controller) and any interleaved
ingest calls, the published budget satisfies
`BMIN ≤ ASR_GetCurrentBudget ≤ BMAX` for the installed default
configuration. -/
theorem c5_budget_within_bounds (st : ASRMetricsInternal) (h : Reachable st) :
    asr_default_config.BMIN ≤ ASR_GetCurrentBudget st ∧
      ASR_GetCurrentBudget st ≤ asr_default_config.BMAX := by
  induction h with
  | init st0 =>
    refine ⟨le_of_eq rfl, ?_⟩
    show (10 : ℤ) ≤ 2000
    decide
  | tick st now _ ih =>
    simp only [ASR_GetCurrentBudget] at ih ⊢
    obtain ⟨A, hA⟩ := tick_budget_shape asr_default_config now st
    rw [hA]
    rcases asr_apply_hysteresis_cases asr_default_config st.current_budget
        (budget_from_aggressiveness A asr_default_config) with hc | ⟨hc, _⟩
    · rw [hc]; exact ih
    · rw [hc]
      exact budget_from_aggressiveness_bounds A asr_default_config (by decide)
  | replay st cfg n _ ih =>
    simpa only [ASR_GetCurrentBudget, recordReplayTask_budget] using ih
  | miss st cfg _ ih =>
    simpa only [ASR_GetCurrentBudget, recordHotMiss_budget] using ih
  | wal st cfg b _ ih =>
    simpa only [ASR_GetCurrentBudget, recordWalIngest_budget] using ih

theorem c5_budget_within_bounds_witness :
    asr_default_config.BMIN ≤ ASR_GetCurrentBudget (ASR_Init asr_metrics_init).2 ∧
      ASR_GetCurrentBudget (ASR_Init asr_metrics_init).2 ≤ asr_default_config.BMAX :=
  c5_budget_within_bounds _ (Reachable.init asr_metrics_init)

/-- C6: for every tick the stored aggressiveness changes by at most
`MAX_STEP` (for any nonnegative `MAX_STEP`, as the configuration
contract requires): the step-limit block snaps an excursion larger
than `MAX_STEP` to `agg_prev ± MAX_STEP` before it is stored. -/
theorem c6_agg_step_bounded (cfg : ASRConfig) (now : ℤ) (st : ASRMetricsInternal)
    (h : 0 ≤ cfg.MAX_STEP) :
    |(asr_update_smoothed_metrics cfg now st).current_aggressiveness -
      st.current_aggressiveness| ≤ cfg.MAX_STEP := by
  obtain ⟨t, ht⟩ := tick_agg_shape cfg now st
  rw [ht]
  exact asr_step_limit_bound cfg st.current_aggressiveness t h

theorem c6_agg_step_bounded_witness :
    0 ≤ asr_default_config.MAX_STEP ∧
      |(asr_update_smoothed_metrics asr_default_config 1 asr_metrics_init).current_aggressiveness -
        asr_metrics_init.current_aggressiveness| ≤ asr_default_config.MAX_STEP :=
  ⟨by norm_num [asr_default_config],
    c6_agg_step_bounded asr_default_config 1 asr_metrics_init
      (by norm_num [asr_default_config])⟩

/-- C7: a tick publishes `asr_apply_hysteresis` of the previous budget
and the newly computed budget, so consecutive published budgets are
either equal or differ by at least `HYST`: when the new budget is
within `HYST` of the published one it is suppressed, otherwise it is
published. -/
theorem c7_budget_hysteresis (cfg : ASRConfig) (now : ℤ) (st : ASRMetricsInternal) :
    (asr_update_smoothed_metrics cfg now st).current_budget =
        asr_apply_hysteresis cfg st.current_budget (asr_tick_target_budget cfg now st) ∧
      ((asr_update_smoothed_metrics cfg now st).current_budget = st.current_budget ∨
        cfg.HYST ≤
          |(asr_update_smoothed_metrics cfg now st).current_budget - st.current_budget|) := by
  refine ⟨tick_budget_eq cfg now st, ?_⟩
  rw [tick_budget_eq]
  rcases asr_apply_hysteresis_cases cfg st.current_budget
      (asr_tick_target_budget cfg now st) with hc | ⟨hc, hge⟩
  · left; exact hc
  · right; rw [hc]; exact hge

/-- C8 counterexample: the EWMA weight is the compile-time constant
`EWMA_ALPHA = 3/10`, not a configuration field: with the spec's
configurable weight set to 1/2, the code's `ewma_update 0 1 = 3/10`
differs from the spec's `ewma_update_spec (1/2) 0 1 = 1/2`. -/
theorem c8_alpha_not_configurable :
    ewma_update 0 1 ≠ ewma_update_spec (1/2) 0 1 := by
  norm_num [ewma_update, ewma_update_spec, EWMA_ALPHA]

/-- C8 (amended): on every tick each of the three smoothed metrics is
updated by `x_ewma ← α·x_raw + (1−α)·x_ewma` where α is the fixed
compile-time constant `EWMA_ALPHA = 3/10` (there is no `ewma_alpha`
configuration field). -/
theorem c8_ewma_fixed_alpha (cfg : ASRConfig) (now : ℤ) (st : ASRMetricsInternal) :
    (asr_update_smoothed_metrics cfg now st).queue_ewma =
        ewma_update st.queue_ewma (asr_raw_queue now st) ∧
      (asr_update_smoothed_metrics cfg now st).miss_rate_ewma =
        ewma_update st.miss_rate_ewma (asr_raw_miss_rate st) ∧
      (asr_update_smoothed_metrics cfg now st).wal_bps_ewma =
        ewma_update st.wal_bps_ewma (asr_raw_wal_bps now st) ∧
      (∀ o n : ℚ, ewma_update o n = EWMA_ALPHA * n + (1 - EWMA_ALPHA) * o) ∧
      EWMA_ALPHA = 3 / 10 :=
  ⟨rfl, rfl, rfl, fun _ _ => rfl, rfl⟩

/-- C10: even under an enabled configuration, `ASR_RecordReplayTask`
with `count ≤ 0` and `ASR_RecordWalIngest` with `bytes = 0` return the
state unchanged. -/
theorem c10_nonpositive_ingest_noop (cfg : ASRConfig) (st : ASRMetricsInternal)
    (count : ℤ) (h : count ≤ 0) :
    ASR_RecordReplayTask cfg count st = st ∧ ASR_RecordWalIngest cfg 0 st = st := by
  constructor
  · simp [ASR_RecordReplayTask, h]
  · simp [ASR_RecordWalIngest]

theorem c10_nonpositive_ingest_noop_witness :
    ((-3 : ℤ) ≤ 0) ∧
      (ASR_RecordReplayTask asr_enabled_config (-3) asr_metrics_init = asr_metrics_init ∧
        ASR_RecordWalIngest asr_enabled_config 0 asr_metrics_init = asr_metrics_init) :=
  ⟨by decide, c10_nonpositive_ingest_noop asr_enabled_config asr_metrics_init (-3) (by decide)⟩

end AdaptiveSR
